import Mathlib

/-!
# Verification of the bloat request-authentication-and-dispatch pipeline

Shallow embedding of `src/service/transport.go` (package `service`):
the uniform route wrapper `handle`, the transport-level `authenticate`
closure, `writeError`, `setSessionCookie`, `redirect`, `writeJson`, and
the concrete route closures the claims mention (`rootPage`, `signout`,
`post`, `searchPage`, `userSearchPage`).

The service-layer gate `s.authenticate`, the session lookup, the CSRF
token, `s.Signout` and `Session.IsLoggedIn` live in other files of the
repository that are not part of the transport source; those are modelled
from the specification and carry a `Modelled from the spec:` doc comment.

Side effects on the `http.ResponseWriter`, the session store, the logger
and the wall clock are made explicit in an effect record `Eff` threaded
through the pipeline.
-/

/-- Session state (spec §3): `anonymous` or `authenticated`, never both. -/
inductive SessionState where
  | anonymous
  | authenticated
deriving DecidableEq, Repr

/-- Modelled from the spec: the Session record of §3 (`model.Session` is not
part of the transport source). Identifier, state, remote instance reference,
CSRF secret and expiry timestamp. -/
structure Session where
  id : String
  state : SessionState
  instanceRef : String
  csrfSecret : Nat
  expiry : Nat
deriving DecidableEq, Repr

/-- The Go zero value of `model.Session`: `c.s` before any gate resolves a
session (all string fields empty, anonymous). -/
def Session.zero : Session := ⟨"", .anonymous, "", 0, 0⟩

/-- Modelled from the spec: `Session.IsLoggedIn` (in `model`, not in the
transport source) — true exactly when the session is in `authenticated`
state (§3 lifecycle, §4.3 business rule). -/
def Session.isLoggedIn (s : Session) : Bool :=
  s.state = SessionState.authenticated

/-- The error taxonomy of spec §7 plus route-handler business errors.
`nilDereference` marks the one partial operation of the transport source
(the `c.r.MultipartForm` nil-pointer access in the `post` handler), which a
total embedding must make explicit. -/
inductive Err where
  | invalidSession
  | invalidCsrf
  | backendUnavailable (msg : String)
  | business (msg : String)
  | nilDereference
deriving DecidableEq, Repr

/-- Rendered message of an error (`err.Error()` in Go). -/
def errMsg : Err → String
  | .invalidSession => "invalid session"
  | .invalidCsrf => "invalid csrf token"
  | .backendUnavailable m => m
  | .business m => m
  | .nilDereference => "runtime error: invalid memory address or nil pointer dereference"

/-- Authentication levels `NOAUTH`, `SESSION`, `CSRF` (transport source
constants). -/
inductive AuthLevel where
  | noauth
  | session
  | csrf
deriving DecidableEq, Repr

/-- Response kinds `HTML`, `JSON` (transport source constants). -/
inductive RespType where
  | html
  | json
deriving DecidableEq, Repr

/-- Content type written by `handle` for each response kind. -/
def contentTypeFor : RespType → String
  | .html => "text/html; charset=utf-8"
  | .json => "application/json"

/-- A `Set-Cookie` emitted through `http.SetCookie`: name, value and the
absolute `Expires` timestamp. -/
structure CookieSet where
  name : String
  value : String
  expiresAt : Nat
deriving DecidableEq, Repr

/-- One body fragment written to the response: the HTML error page
(`s.ErrorPage(c, err, retry)`) or a JSON object (`json.NewEncoder.Encode` of
a map). A JSON object is a field list, so "exactly one field" is visible. -/
inductive BodyPiece where
  | errorPage (e : Err) (retry : Bool)
  | jsonObj (fields : List (String × String))
deriving DecidableEq, Repr

/-- The structured log record of `logger.Printf` in `handle`: request path,
terminal error (or none) and elapsed time. -/
structure LogRec where
  path : String
  err : Option Err
  took : Nat
deriving DecidableEq, Repr

/-- The explicit effect state of one request: response writer contents
(headers, status writes, body pieces, cookies), logger output, the external
session store, the number of Authentication Gate invocations so far, and the
wall clock. -/
structure Eff where
  headers : List (String × String)
  statuses : List Nat
  pieces : List BodyPiece
  cookies : List CookieSet
  logs : List LogRec
  store : List Session
  gateCalls : Nat
  clock : Nat
deriving DecidableEq, Repr

/-- The per-request environment: initial store, request-start wall clock,
whether the session store is reachable (spec §7 `BackendUnavailable`),
whether a destroy against the store fails, and abstract durations of the
gate and of error writing. -/
structure Env where
  store : List Session
  now : Nat
  storeDown : Bool
  destroyFails : Bool
  authCost : Nat
  errCost : Nat
deriving DecidableEq, Repr

/-- Effect state at the start of `handle`: nothing written, nothing logged,
store as found, clock at request start. -/
def initEff (env : Env) : Eff :=
  ⟨[], [], [], [], [], env.store, 0, env.now⟩

/-- `c.w.Header().Add(k, v)`: append a response header. -/
def addHeader (e : Eff) (k v : String) : Eff :=
  { e with headers := e.headers ++ [(k, v)] }

/-- `c.w.WriteHeader(code)`: record a status write. -/
def addStatus (e : Eff) (code : Nat) : Eff :=
  { e with statuses := e.statuses ++ [code] }

/-- Write one body piece to the response. -/
def addPiece (e : Eff) (p : BodyPiece) : Eff :=
  { e with pieces := e.pieces ++ [p] }

/-- An inbound HTTP request: method, path, the `session_id` cookie if
presented, form values (`r.FormValue`), query values, mux path variables,
and the parsed multipart form — `none` when the body is not
`multipart/form-data` (Go leaves `r.MultipartForm` nil then). -/
structure Request where
  method : String
  path : String
  cookieSessionId : Option String
  form : List (String × String)
  query : List (String × String)
  pathVars : List (String × String)
  multipartForm : Option (List (String × List String))
deriving DecidableEq, Repr

/-- `c.r.FormValue(k)`: the form value, or `""` when absent. -/
def formValue (r : Request) (k : String) : String :=
  ((r.form.find? (fun p => p.1 = k)).map Prod.snd).getD ""

/-- `q.Get(k)` on `c.r.URL.Query()`: the query value, or `""` when absent. -/
def queryGet (r : Request) (k : String) : String :=
  ((r.query.find? (fun p => p.1 = k)).map Prod.snd).getD ""

/-- `mux.Vars(c.r)[k]`: the path variable, or `""` when absent. -/
def pathVar (r : Request) (k : String) : String :=
  ((r.pathVars.find? (fun p => p.1 = k)).map Prod.snd).getD ""

/-- The session identifier `handle`'s `authenticate` closure extracts: the
`session_id` cookie value, or `""` when the cookie is absent. -/
def sidOf (r : Request) : String :=
  r.cookieSessionId.getD ""

/-- Modelled from the spec: `deriveToken` of §4.2 (the CSRF Guard is not in
the transport source) — a pure, deterministic, never-empty function of the
session's CSRF secret. -/
def deriveToken (s : Session) : String :=
  "csrf-" ++ Nat.repr s.csrfSecret

/-- Modelled from the spec: `lookup` of §4.1 (the Session Manager is not in
the transport source) — returns the session if present and unexpired;
unknown and expired identifiers are indistinguishable (`none`). -/
def lookup (store : List Session) (now : Nat) (sid : String) : Option Session :=
  match store.find? (fun s => s.id = sid) with
  | some s => if now < s.expiry then some s else none
  | none => none

/-- Modelled from the spec: the Authentication Gate state machine of §4.3
(`s.authenticate` is in the service layer, not in the transport source).
`NoAuth` passes unconditionally leaving `c.s` at its zero value;
`SessionRequired` resolves the session or fails `InvalidSession`;
`CsrfRequired` additionally validates the presented token against
`deriveToken` or fails `InvalidCsrf`. A store that cannot be reached
surfaces `BackendUnavailable` (§7). -/
def svcAuthenticate (env : Env) (store : List Session) (now : Nat)
    (sid csrf : String) : AuthLevel → Except Err Session
  | .noauth => .ok Session.zero
  | .session =>
    if env.storeDown then .error (.backendUnavailable "session store unavailable")
    else
      match lookup store now sid with
      | none => .error .invalidSession
      | some s => .ok s
  | .csrf =>
    if env.storeDown then .error (.backendUnavailable "session store unavailable")
    else
      match lookup store now sid with
      | none => .error .invalidSession
      | some s =>
        if csrf = deriveToken s then .ok s else .error .invalidCsrf

/-- Modelled from the spec: `destroy` of §4.1 backing `s.Signout` (not in
the transport source) — idempotent removal; destroying a non-existent
session is not an error; a store write failure is reported. -/
def svcSignout (env : Env) (store : List Session) (sid : String) :
    List Session × Option Err :=
  if env.destroyFails then (store, some (.backendUnavailable "session store unavailable"))
  else (store.filter (fun s => ¬ s.id = sid), none)

/-- The transport-level `authenticate` closure (transport source lines
78–86): extract the session identifier from the `session_id` cookie, the
presented token from the `csrf_token` form value, and invoke the
service-layer gate. Each call is one Authentication Gate invocation
(counted) and takes `env.authCost` wall-clock time. -/
def authenticate (env : Env) (r : Request) (t : AuthLevel) (e : Eff) :
    Eff × Except Err Session :=
  let sid := sidOf r
  let csrf := formValue r "csrf_token"
  let e1 := { e with gateCalls := e.gateCalls + 1, clock := e.clock + env.authCost }
  (e1, svcAuthenticate env e.store env.now sid csrf t)

/-- `writeError` (transport source lines 65–76): on both response kinds set
HTTP 500; HTML renders the error page with the retry flag, JSON encodes a
one-field object with key `error`. Takes `env.errCost` wall-clock time. -/
def writeError (env : Env) (rt : RespType) (err : Err) (retry : Bool) (e : Eff) : Eff :=
  let e1 := { e with clock := e.clock + env.errCost }
  match rt with
  | .html => addPiece (addStatus e1 500) (.errorPage err retry)
  | .json => addPiece (addStatus e1 500) (.jsonObj [("error", errMsg err)])

/-- `setSessionCookie` (transport source lines 43–49): set a cookie named
`session_id` with the given value, expiring at `time.Now().Add(exp)` — the
current clock plus the duration. -/
def setSessionCookie (e : Eff) (sid : String) (exp : Nat) : Eff :=
  { e with cookies := e.cookies ++ [⟨"session_id", sid, e.clock + exp⟩] }

/-- `redirect` (transport source lines 57–60): add a `Location` header and
write status 302 (`http.StatusFound`). -/
def redirect (e : Eff) (url : String) : Eff :=
  addStatus (addHeader e "Location" url) 302

/-- `writeJson` (transport source lines 51–55): encode a one-field object
with key `data`. -/
def writeJson (e : Eff) (payload : String) : Eff :=
  addPiece e (.jsonObj [("data", payload)])

/-- A route's business-logic function `f : func(c *client) error`: reads the
environment, the request and the gate-resolved session `c.s`, transforms the
effect state and returns Go's `error` result. -/
def HandlerFn : Type :=
  Env → Request → Session → Eff → Eff × Option Err

/-- The deferred `logger.Printf` of `handle` (transport source lines
97–100): one record with the request path, the terminal error value and the
time elapsed since `begin`. -/
def emitLog (e : Eff) (path : String) (err : Option Err) (begin_ : Nat) : Eff :=
  { e with logs := e.logs ++ [⟨path, err, e.clock - begin_⟩] }

/-- `handle` (transport source lines 88–123), the Request Dispatcher: record
`begin`, register the deferred log (fires on every exit), add the
Content-Type header, run the gate; on gate failure write the error response
and stop; otherwise run the business logic; on its failure write the error
response; the deferred log always fires last with the terminal `err`. -/
def handle (f : HandlerFn) (at_ : AuthLevel) (rt : RespType)
    (env : Env) (req : Request) : Eff :=
  let begin_ := env.now
  let e1 := addHeader (initEff env) "Content-Type" (contentTypeFor rt)
  match authenticate env req at_ e1 with
  | (e2, .error err) =>
    emitLog (writeError env rt err (req.method = "GET") e2) req.path (some err) begin_
  | (e2, .ok s) =>
    match f env req s e2 with
    | (e3, some err) =>
      emitLog (writeError env rt err (req.method = "GET") e3) req.path (some err) begin_
    | (e3, none) =>
      emitLog e3 req.path none begin_

/-- The pipeline's terminal error: the gate's failure, else the business
logic's result — mirrors the `err` variable that the deferred log observes. -/
def pipelineErr (f : HandlerFn) (at_ : AuthLevel) (rt : RespType)
    (env : Env) (req : Request) : Option Err :=
  let e1 := addHeader (initEff env) "Content-Type" (contentTypeFor rt)
  match authenticate env req at_ e1 with
  | (_, .error err) => some err
  | (e2, .ok s) => (f env req s e2).2

/-- The digit part of a `strconv.Atoi` input: its characters with a
leading sign stripped. -/
def atoiDigits (s : String) : List Char :=
  match s.data with
  | c :: cs => if c = '+' || c = '-' then cs else c :: cs
  | [] => []

/-- Whether a `strconv.Atoi` input carries a leading minus sign. -/
def atoiNeg (s : String) : Bool :=
  match s.data with
  | c :: _ => c = '-'
  | [] => false

/-- Whether `strconv.Atoi` accepts the string: nonempty digits after an
optional sign. -/
def atoiValid (s : String) : Bool :=
  decide (atoiDigits s ≠ []) && (atoiDigits s).all Char.isDigit

/-- The integer value of a valid `strconv.Atoi` input. -/
def atoiVal (s : String) : Int :=
  let n : Nat := (atoiDigits s).foldl (fun acc c => acc * 10 + (c.toNat - 48)) 0
  if atoiNeg s then -(n : Int) else (n : Int)

/-- `strconv.Atoi` as the transport uses it: the parsed integer and a
success flag. A missing or non-numeric string parses to `(0, false)` —
exactly Go's `(0, err)` for a syntax error. (The `ErrRange` clamping of
out-of-64-bit-range literals is not modelled; the routes only discard the
error.) -/
def goAtoi (s : String) : Int × Bool :=
  if atoiValid s then (atoiVal s, true) else (0, false)

/-- Whether `strconv.Atoi` accepts the string. -/
def isGoNum (s : String) : Bool := (goAtoi s).2

/-- The business logic of the `rootPage` route (transport source lines
125–139), parameterised by the out-of-scope page renderer `s.RootPage`:
re-run the gate at `SESSION` level; on `errInvalidSession` redirect to
`/signin` with no error; on any other gate error propagate it; with a
session that is not logged in redirect to `/signin`; otherwise render. -/
def rootPageF (rp : HandlerFn) : HandlerFn := fun env req _ e =>
  match authenticate env req .session e with
  | (e1, .error err) =>
    if err = Err.invalidSession then (redirect e1 "/signin", none)
    else (e1, some err)
  | (e1, .ok s) =>
    if s.isLoggedIn then rp env req s e1
    else (redirect e1 "/signin", none)

/-- The `rootPage` route as registered: `handle(f, NOAUTH, HTML)` on
`GET /`. -/
def rootPage (rp : HandlerFn) (env : Env) (req : Request) : Eff :=
  handle (rootPageF rp) .noauth .html env req

/-- The business logic of the `signout` route (transport source lines
580–585): call `s.Signout(c)` discarding its result, clear the session
cookie (duration 0) and redirect to `/`. -/
def signoutF : HandlerFn := fun env _ s e =>
  let r := svcSignout env e.store s.id
  let e1 := { e with store := r.1 }
  (redirect (setSessionCookie e1 "" 0) "/", none)

/-- The `signout` route as registered: `handle(f, CSRF, HTML)` on
`POST /signout`. -/
def signout (env : Env) (req : Request) : Eff :=
  handle signoutF .csrf .html env req

/-- The shape of `s.Post` (out of scope): content, reply-to id, format,
visibility, NSFW flag, attachment files; returns the new status id or an
error. -/
def PostBiz : Type :=
  String → String → String → String → Bool → List String → Eff → Eff × (String × Option Err)

/-- The business logic of the `post` route (transport source lines
260–279), parameterised by `s.Post`. The source reads
`c.r.MultipartForm.File["attachments"]` unconditionally; when the request
body was not multipart Go's `r.MultipartForm` is nil and the access is a
nil-pointer dereference — the total embedding surfaces that branch as the
explicit `Err.nilDereference` outcome. -/
def postF (biz : PostBiz) : HandlerFn := fun _ req _ e =>
  let content := formValue req "content"
  let replyToID := formValue req "reply_to_id"
  let format := formValue req "format"
  let visibility := formValue req "visibility"
  let isNSFW := formValue req "is_nsfw" = "true"
  match req.multipartForm with
  | none => (e, some Err.nilDereference)
  | some mp =>
    let files := ((mp.find? (fun p => p.1 = "attachments")).map Prod.snd).getD []
    match biz content replyToID format visibility isNSFW files e with
    | (e1, (_, some err)) => (e1, some err)
    | (e1, (id, none)) =>
      let location := formValue req "referrer"
      let location := if replyToID.length > 0
        then "/thread/" ++ replyToID ++ "#status-" ++ id
        else location
      (redirect e1 location, none)

/-- The `post` route as registered: `handle(f, CSRF, HTML)` on
`POST /post`. -/
def post (biz : PostBiz) (env : Env) (req : Request) : Eff :=
  handle (postF biz) .csrf .html env req

/-- The shape of `s.SearchPage` (out of scope): query, type, offset. -/
def SearchBiz : Type :=
  String → String → Int → Eff → Eff × Option Err

/-- The business logic of the `searchPage` route (transport source lines
222–228), parameterised by `s.SearchPage`: read `q` and `type` from the
query, parse `offset` with `strconv.Atoi` discarding the error, and call
the page renderer. -/
def searchPageF (biz : SearchBiz) : HandlerFn := fun _ req _ e =>
  let sq := queryGet req "q"
  let qType := queryGet req "type"
  let offset := (goAtoi (queryGet req "offset")).1
  biz sq qType offset e

/-- The `searchPage` route as registered: `handle(f, SESSION, HTML)` on
`GET /search`. -/
def searchPage (biz : SearchBiz) (env : Env) (req : Request) : Eff :=
  handle (searchPageF biz) .session .html env req

/-- The business logic of the `userSearchPage` route (transport source
lines 206–212), parameterised by `s.UserSearchPage`: read the `id` path
variable, `q` from the query, parse `offset` with `strconv.Atoi` discarding
the error, and call the page renderer. -/
def userSearchPageF (biz : SearchBiz) : HandlerFn := fun _ req _ e =>
  let id := pathVar req "id"
  let sq := queryGet req "q"
  let offset := (goAtoi (queryGet req "offset")).1
  biz id sq offset e

/-- The `userSearchPage` route as registered: `handle(f, SESSION, HTML)` on
`GET /usersearch/id`. -/
def userSearchPage (biz : SearchBiz) (env : Env) (req : Request) : Eff :=
  handle (userSearchPageF biz) .session .html env req

/-- The response `handle` produces when the Authentication Gate fails with
`err`: Content-Type header, one gate invocation, the error response for the
route's kind, and the single deferred log record. Mentions neither the
business-logic function nor the session — the expected output when business
logic never runs. -/
def gateFailEff (env : Env) (req : Request) (rt : RespType) (err : Err) : Eff :=
  let e1 := addHeader (initEff env) "Content-Type" (contentTypeFor rt)
  let e2 := { e1 with gateCalls := e1.gateCalls + 1, clock := e1.clock + env.authCost }
  emitLog (writeError env rt err (req.method = "GET") e2) req.path (some err) env.now

/-- C1: for every route registered at `SessionRequired` or `CsrfRequired`,
a request whose session identifier is unknown or expired (the lookup
resolves nothing) makes the dispatcher produce exactly the `InvalidSession`
error response; the result does not mention the business-logic function
`f`, so business logic is never invoked. -/
theorem c1_invalid_session_stops_pipeline (f : HandlerFn) (at_ : AuthLevel)
    (rt : RespType) (env : Env) (req : Request)
    (hat : at_ = AuthLevel.session ∨ at_ = AuthLevel.csrf)
    (hup : env.storeDown = false)
    (hs : lookup env.store env.now (sidOf req) = none) :
    handle f at_ rt env req = gateFailEff env req rt Err.invalidSession := by
  rcases hat with h | h <;> subst h <;>
    simp [handle, authenticate, svcAuthenticate, gateFailEff, hup, hs,
      initEff, addHeader]

/-- Witness for C1: a concrete request with an unknown session identifier
at both levels, both response kinds. -/
theorem c1_invalid_session_stops_pipeline_witness :
    handle (fun _ _ _ e => (e, none)) AuthLevel.session RespType.html
        ⟨[], 10, false, false, 2, 3⟩
        ⟨"GET", "/nav", some "nosuch", [], [], [], none⟩ =
      gateFailEff ⟨[], 10, false, false, 2, 3⟩
        ⟨"GET", "/nav", some "nosuch", [], [], [], none⟩
        RespType.html Err.invalidSession ∧
    handle (fun _ _ _ e => (e, none)) AuthLevel.csrf RespType.json
        ⟨[], 10, false, false, 2, 3⟩
        ⟨"POST", "/fluoride/like/1", none, [], [], [], none⟩ =
      gateFailEff ⟨[], 10, false, false, 2, 3⟩
        ⟨"POST", "/fluoride/like/1", none, [], [], [], none⟩
        RespType.json Err.invalidSession :=
  ⟨c1_invalid_session_stops_pipeline _ _ _ _ _ (Or.inl rfl) rfl (by decide),
   c1_invalid_session_stops_pipeline _ _ _ _ _ (Or.inr rfl) rfl (by decide)⟩

/-- The derived CSRF token is never the empty string, so an absent
`csrf_token` form field (which `FormValue` reads as `""`) can never match:
absence is always invalid, never a skipped check. -/
theorem deriveToken_ne_empty (s : Session) : deriveToken s ≠ "" := by
  unfold deriveToken
  intro h
  have hlen := congrArg String.length h
  simp [String.length_append] at hlen
  exact absurd hlen.1 (by decide)

/-- C2: for every `CsrfRequired` route, a request that resolves a valid
session but presents a `csrf_token` different from the session's derived
token (in particular the absent token `""`, which never equals the derived
token) makes the dispatcher produce exactly the `InvalidCsrf` error
response; the result does not mention the business-logic function, so
business logic never runs — also when the session is authenticated, since
the session's state is unconstrained here. -/
theorem c2_invalid_csrf_stops_pipeline (f : HandlerFn) (rt : RespType)
    (env : Env) (req : Request) (sess : Session)
    (hup : env.storeDown = false)
    (hs : lookup env.store env.now (sidOf req) = some sess)
    (hm : formValue req "csrf_token" ≠ deriveToken sess) :
    handle f AuthLevel.csrf rt env req = gateFailEff env req rt Err.invalidCsrf := by
  simp [handle, authenticate, svcAuthenticate, gateFailEff, hup, hs, hm,
    initEff, addHeader]

/-- Witness for C2: an authenticated, unexpired session whose request
carries no `csrf_token` form field at all — the absent token is rejected,
business logic never runs. -/
theorem c2_invalid_csrf_stops_pipeline_witness :
    handle (fun _ _ _ e => (e, none)) AuthLevel.csrf RespType.html
        ⟨[⟨"sid1", .authenticated, "example.social", 7, 1000⟩], 10, false, false, 2, 3⟩
        ⟨"POST", "/like/42", some "sid1", [], [], [("id", "42")], none⟩ =
      gateFailEff
        ⟨[⟨"sid1", .authenticated, "example.social", 7, 1000⟩], 10, false, false, 2, 3⟩
        ⟨"POST", "/like/42", some "sid1", [], [], [("id", "42")], none⟩
        RespType.html Err.invalidCsrf :=
  c2_invalid_csrf_stops_pipeline _ _ _ _
    ⟨"sid1", .authenticated, "example.social", 7, 1000⟩ rfl (by decide) (by decide)

/-- C7: whenever the pipeline terminates with an error — from the gate or
from business logic — the response ends with a status-500 write, and the
last body piece is the HTML error page whose retry flag is the Boolean
"the request method was GET", or on the JSON path an object whose only
field is `error`. -/
theorem c7_error_response_shape (f : HandlerFn) (at_ : AuthLevel)
    (rt : RespType) (env : Env) (req : Request) (err : Err)
    (he : pipelineErr f at_ rt env req = some err) :
    (handle f at_ rt env req).statuses.getLast? = some 500 ∧
    (rt = RespType.html →
      (handle f at_ rt env req).pieces.getLast? =
        some (BodyPiece.errorPage err (req.method = "GET"))) ∧
    (rt = RespType.json →
      (handle f at_ rt env req).pieces.getLast? =
        some (BodyPiece.jsonObj [("error", errMsg err)])) := by
  simp only [handle, pipelineErr] at he ⊢
  rcases hA : authenticate env req at_
      (addHeader (initEff env) "Content-Type" (contentTypeFor rt)) with ⟨e2, r⟩
  rw [hA] at he
  cases r with
  | error e0 =>
    simp at he
    subst he
    cases rt <;> simp [writeError, emitLog, addStatus, addPiece]
  | ok s =>
    rcases hF : f env req s e2 with ⟨e3, oerr⟩
    simp only [hF] at he ⊢
    cases oerr with
    | none => simp at he
    | some e0 =>
      simp at he
      subst he
      cases rt <;> simp [writeError, emitLog, addStatus, addPiece]

/-- Witness for C7: a business-logic failure on a POST JSON route — status
500 is the last status write and the body ends with a one-field `error`
object; and the same failure on a GET HTML route yields the error page
with the retry flag set. -/
theorem c7_error_response_shape_witness :
    (handle (fun _ _ _ e => (e, some (Err.business "remote api down")))
        AuthLevel.noauth RespType.json
        ⟨[], 10, false, false, 2, 3⟩
        ⟨"POST", "/signin", none, [], [], [], none⟩).statuses.getLast? = some 500 ∧
    (handle (fun _ _ _ e => (e, some (Err.business "remote api down")))
        AuthLevel.noauth RespType.html
        ⟨[], 10, false, false, 2, 3⟩
        ⟨"GET", "/signin", none, [], [], [], none⟩).pieces.getLast? =
      some (BodyPiece.errorPage (Err.business "remote api down") true) :=
  ⟨(c7_error_response_shape (fun _ _ _ e => (e, some (Err.business "remote api down")))
      AuthLevel.noauth RespType.json
      ⟨[], 10, false, false, 2, 3⟩
      ⟨"POST", "/signin", none, [], [], [], none⟩
      (Err.business "remote api down") (by decide)).1,
   by
    have h := (c7_error_response_shape
      (fun _ _ _ e => (e, some (Err.business "remote api down")))
      AuthLevel.noauth RespType.html
      ⟨[], 10, false, false, 2, 3⟩
      ⟨"GET", "/signin", none, [], [], [], none⟩
      (Err.business "remote api down") (by decide)).2.1 rfl
    simpa using h⟩

/-- The effect of one transport-level gate call: one more gate invocation,
`authCost` wall-clock time, nothing else. -/
theorem authenticate_fst (env : Env) (req : Request) (t : AuthLevel) (e : Eff) :
    (authenticate env req t e).1 =
      { e with gateCalls := e.gateCalls + 1, clock := e.clock + env.authCost } := rfl

/-- C6: for every request and on every exit path — success, gate failure,
business-logic failure — the deferred log fires exactly once, and the
single record carries the request path, the pipeline's terminal error (or
none), and the elapsed time from pipeline start to pipeline end (final
clock minus request-start clock), i.e. the whole pipeline, not just
business logic. The hypothesis says only that the business logic does not
write to the logger itself, true of every route in the transport source. -/
theorem c6_one_log_per_request (f : HandlerFn) (at_ : AuthLevel)
    (rt : RespType) (env : Env) (req : Request)
    (hf : ∀ env2 req2 s e, ((f env2 req2 s e).1).logs = e.logs) :
    (handle f at_ rt env req).logs =
      [⟨req.path, pipelineErr f at_ rt env req,
        (handle f at_ rt env req).clock - env.now⟩] := by
  simp only [handle, pipelineErr]
  rcases hA : authenticate env req at_
      (addHeader (initEff env) "Content-Type" (contentTypeFor rt)) with ⟨e2, r⟩
  have h2 := congrArg Prod.fst hA
  rw [authenticate_fst] at h2
  simp only at h2
  cases r with
  | error e0 =>
    simp [← h2, emitLog, writeError, addStatus, addPiece, addHeader, initEff]
    cases rt <;> simp [writeError, addStatus, addPiece]
  | ok s =>
    rcases hF : f env req s e2 with ⟨e3, oerr⟩
    have h3 : e3.logs = e2.logs := by
      have := hf env req s e2
      rw [hF] at this
      exact this
    have h3e : e3.logs = [] := by
      rw [h3, ← h2]
      simp [addHeader, initEff]
    cases oerr with
    | none => simp [hF, emitLog, h3e]
    | some e0 =>
      simp [hF, emitLog, h3e]
      cases rt <;> simp [writeError, addStatus, addPiece, h3e]

/-- Witness for C6: a concrete failing business logic on a concrete
request — exactly one log record, with the path, the terminal error and
the full elapsed time. -/
theorem c6_one_log_per_request_witness :
    (handle (fun _ _ _ e => ({ e with clock := e.clock + 5 }, some (Err.business "boom")))
        AuthLevel.noauth RespType.html
        ⟨[], 10, false, false, 2, 3⟩
        ⟨"POST", "/signin", none, [], [], [], none⟩).logs =
      [⟨"/signin", some (Err.business "boom"), 10⟩] := by
  have h := c6_one_log_per_request
    (fun _ _ _ e => ({ e with clock := e.clock + 5 }, some (Err.business "boom")))
    AuthLevel.noauth RespType.html
    ⟨[], 10, false, false, 2, 3⟩
    ⟨"POST", "/signin", none, [], [], [], none⟩
    (fun _ _ _ _ => rfl)
  simpa using h

/-- Writing an error response performs no gate invocation. -/
theorem writeError_gateCalls (env : Env) (rt : RespType) (err : Err)
    (retry : Bool) (e : Eff) :
    (writeError env rt err retry e).gateCalls = e.gateCalls := by
  cases rt <;> rfl

/-- Emitting the deferred log performs no gate invocation. -/
theorem emitLog_gateCalls (e : Eff) (p : String) (err : Option Err) (b : Nat) :
    (emitLog e p err b).gateCalls = e.gateCalls := rfl

/-- A redirect performs no gate invocation. -/
theorem redirect_gateCalls (e : Eff) (url : String) :
    (redirect e url).gateCalls = e.gateCalls := rfl

/-- The root page's business logic performs exactly one further gate
invocation (its own `authenticate(c, SESSION)` call), on every one of its
branches, provided the page renderer performs none. -/
theorem rootPageF_gateCalls (rp : HandlerFn)
    (hrp : ∀ env2 req2 s e, ((rp env2 req2 s e).1).gateCalls = e.gateCalls)
    (env : Env) (req : Request) (s : Session) (e : Eff) :
    ((rootPageF rp env req s e).1).gateCalls = e.gateCalls + 1 := by
  simp only [rootPageF]
  rcases hA : authenticate env req AuthLevel.session e with ⟨e1, r⟩
  have h2 := congrArg Prod.fst hA
  rw [authenticate_fst] at h2
  simp only at h2
  have hg : e1.gateCalls = e.gateCalls + 1 := by rw [← h2]
  cases r with
  | error e0 =>
    by_cases hc : e0 = Err.invalidSession <;>
      simp [hc, redirect, addStatus, addHeader, hg]
  | ok s2 =>
    by_cases hl : s2.isLoggedIn
    · simp [hl, hrp, hg]
    · simp [hl, redirect, addStatus, addHeader, hg]

/-- Counterexample to C4: the registered `GET /` route invokes the
Authentication Gate twice for one request — once in the dispatcher (at
`NOAUTH`) and once more inside its business logic (at `SESSION`) — so "no
route invokes it zero times or more than once" is false. -/
theorem c4_counterexample :
    (rootPage (fun _ _ _ e => (e, none))
        ⟨[], 10, false, false, 2, 3⟩
        ⟨"GET", "/", some "expired", [], [], [], none⟩).gateCalls = 2 ∧
    ¬ (rootPage (fun _ _ _ e => (e, none))
        ⟨[], 10, false, false, 2, 3⟩
        ⟨"GET", "/", some "expired", [], [], [], none⟩).gateCalls = 1 := by
  decide

/-- C4 (amended): the dispatcher invokes the Authentication Gate exactly
once before business logic for every registered route, so no request
reaches business logic with zero gate invocations; for every route whose
business logic performs no gate call of its own (every route in the
transport source except the root page) the per-request total is exactly
one, while the root page's business logic re-invokes the gate at `SESSION`
level, giving its requests exactly two invocations. -/
theorem c4_gate_exactly_once_amended (f : HandlerFn) (at_ : AuthLevel)
    (rt : RespType) (env : Env) (req : Request)
    (hf : ∀ env2 req2 s e, ((f env2 req2 s e).1).gateCalls = e.gateCalls) :
    (handle f at_ rt env req).gateCalls = 1 ∧
    (∀ (rp : HandlerFn) (env2 : Env) (req2 : Request),
      (∀ env3 req3 s e, ((rp env3 req3 s e).1).gateCalls = e.gateCalls) →
      (rootPage rp env2 req2).gateCalls = 2) := by
  constructor
  · simp only [handle]
    rcases hA : authenticate env req at_
        (addHeader (initEff env) "Content-Type" (contentTypeFor rt)) with ⟨e2, r⟩
    have h2 := congrArg Prod.fst hA
    rw [authenticate_fst] at h2
    simp only at h2
    have hg2 : e2.gateCalls = 1 := by
      rw [← h2]; simp [addHeader, initEff]
    cases r with
    | error e0 => simp [emitLog_gateCalls, writeError_gateCalls, hg2]
    | ok s =>
      rcases hF : f env req s e2 with ⟨e3, oerr⟩
      have hg3 : e3.gateCalls = e2.gateCalls := by
        have := hf env req s e2
        rw [hF] at this
        exact this
      cases oerr <;>
        simp [hF, emitLog_gateCalls, writeError_gateCalls, hg3, hg2]
  · intro rp env2 req2 hrp
    simp only [rootPage, handle, authenticate, svcAuthenticate]
    rcases hF : rootPageF rp env2 req2 Session.zero
        { addHeader (initEff env2) "Content-Type" (contentTypeFor RespType.html) with
          gateCalls :=
            (addHeader (initEff env2) "Content-Type" (contentTypeFor RespType.html)).gateCalls + 1,
          clock :=
            (addHeader (initEff env2) "Content-Type" (contentTypeFor RespType.html)).clock
              + env2.authCost } with ⟨e3, oerr⟩
    have hg3 := rootPageF_gateCalls rp hrp env2 req2 Session.zero
        { addHeader (initEff env2) "Content-Type" (contentTypeFor RespType.html) with
          gateCalls :=
            (addHeader (initEff env2) "Content-Type" (contentTypeFor RespType.html)).gateCalls + 1,
          clock :=
            (addHeader (initEff env2) "Content-Type" (contentTypeFor RespType.html)).clock
              + env2.authCost }
    rw [hF] at hg3
    simp [addHeader, initEff] at hg3
    cases oerr <;>
      simp [hF, emitLog_gateCalls, writeError_gateCalls, hg3, addHeader, initEff]

/-- Witness for the amended C4: a concrete gate-free route (the `signout`
business logic performs no gate call) sees exactly one invocation, and the
root page with a concrete renderer sees exactly two. -/
theorem c4_gate_exactly_once_amended_witness :
    (handle signoutF AuthLevel.csrf RespType.html
        ⟨[⟨"sid1", .authenticated, "example.social", 7, 1000⟩], 10, false, false, 2, 3⟩
        ⟨"POST", "/signout", some "sid1", [("csrf_token", "csrf-7")], [], [], none⟩).gateCalls
      = 1 ∧
    (rootPage (fun _ _ _ e => (e, none))
        ⟨[⟨"sid1", .authenticated, "example.social", 7, 1000⟩], 10, false, false, 2, 3⟩
        ⟨"GET", "/", some "sid1", [], [], [], none⟩).gateCalls = 2 :=
  ⟨(c4_gate_exactly_once_amended signoutF AuthLevel.csrf RespType.html
      ⟨[⟨"sid1", .authenticated, "example.social", 7, 1000⟩], 10, false, false, 2, 3⟩
      ⟨"POST", "/signout", some "sid1", [("csrf_token", "csrf-7")], [], [], none⟩
      (fun _ _ _ _ => rfl)).1,
   (c4_gate_exactly_once_amended signoutF AuthLevel.csrf RespType.html
      ⟨[⟨"sid1", .authenticated, "example.social", 7, 1000⟩], 10, false, false, 2, 3⟩
      ⟨"POST", "/signout", some "sid1", [("csrf_token", "csrf-7")], [], [], none⟩
      (fun _ _ _ _ => rfl)).2
     (fun _ _ _ e => (e, none))
     ⟨[⟨"sid1", .authenticated, "example.social", 7, 1000⟩], 10, false, false, 2, 3⟩
     ⟨"GET", "/", some "sid1", [], [], [], none⟩
     (fun _ _ _ _ => rfl)⟩

/-- The response of `GET /` on the soft-failure path: a 302 redirect to
`/signin`, no status 500, no error page, no cookie — only the Content-Type
header, two gate invocations and the single log record. -/
def rootSigninRedirect (env : Env) (req : Request) : Eff :=
  { headers := [("Content-Type", contentTypeFor RespType.html), ("Location", "/signin")],
    statuses := [302],
    pieces := [],
    cookies := [],
    logs := [⟨req.path, none, env.authCost + env.authCost⟩],
    store := env.store,
    gateCalls := 2,
    clock := env.now + env.authCost + env.authCost }

/-- The response of `GET /` when its inner gate call fails with an error
other than `errInvalidSession`: the ordinary HTML error page with status
500. -/
def rootGateErrorPage (env : Env) (req : Request) (err : Err) : Eff :=
  { headers := [("Content-Type", contentTypeFor RespType.html)],
    statuses := [500],
    pieces := [.errorPage err (req.method = "GET")],
    cookies := [],
    logs := [⟨req.path, some err, env.authCost + env.authCost + env.errCost⟩],
    store := env.store,
    gateCalls := 2,
    clock := env.now + env.authCost + env.authCost + env.errCost }

/-- C5: a `GET /` request whose session cookie is unknown or expired, or
whose session is not in the authenticated state, is answered with a
redirect to `/signin` and no error page; a different gate failure (the
session store unreachable) still produces the HTML 500 error response. -/
theorem c5_root_soft_failure (rp : HandlerFn) (env : Env) (req : Request) :
    (env.storeDown = false →
      lookup env.store env.now (sidOf req) = none →
      rootPage rp env req = rootSigninRedirect env req) ∧
    (∀ s : Session,
      env.storeDown = false →
      lookup env.store env.now (sidOf req) = some s →
      s.isLoggedIn = false →
      rootPage rp env req = rootSigninRedirect env req) ∧
    (env.storeDown = true →
      rootPage rp env req =
        rootGateErrorPage env req (Err.backendUnavailable "session store unavailable")) := by
  refine ⟨?_, ?_, ?_⟩
  · intro hup hs
    simp only [rootPage, handle, rootPageF, authenticate, svcAuthenticate,
      rootSigninRedirect]
    simp [hup, hs, redirect, addStatus, addHeader, addPiece, initEff, emitLog,
      Eff.mk.injEq]
    omega
  · intro s hup hs hl
    simp only [rootPage, handle, rootPageF, authenticate, svcAuthenticate,
      rootSigninRedirect]
    simp [hup, hs, hl, redirect, addStatus, addHeader, addPiece, initEff, emitLog,
      Eff.mk.injEq]
    omega
  · intro hd
    simp only [rootPage, handle, rootPageF, authenticate, svcAuthenticate,
      rootGateErrorPage]
    simp [hd, redirect, addStatus, addHeader, addPiece, initEff, emitLog,
      writeError, Eff.mk.injEq]
    omega

/-- Witness for C5: an expired session cookie redirects to `/signin`, an
anonymous (not-logged-in) session redirects to `/signin`, and an
unreachable session store still yields the HTML 500 error page. -/
theorem c5_root_soft_failure_witness :
    rootPage (fun _ _ _ e => (e, none))
        ⟨[⟨"sid1", .authenticated, "inst", 7, 1000⟩], 2000, false, false, 2, 3⟩
        ⟨"GET", "/", some "sid1", [], [], [], none⟩ =
      rootSigninRedirect
        ⟨[⟨"sid1", .authenticated, "inst", 7, 1000⟩], 2000, false, false, 2, 3⟩
        ⟨"GET", "/", some "sid1", [], [], [], none⟩ ∧
    rootPage (fun _ _ _ e => (e, none))
        ⟨[⟨"sid1", .anonymous, "inst", 7, 1000⟩], 10, false, false, 2, 3⟩
        ⟨"GET", "/", some "sid1", [], [], [], none⟩ =
      rootSigninRedirect
        ⟨[⟨"sid1", .anonymous, "inst", 7, 1000⟩], 10, false, false, 2, 3⟩
        ⟨"GET", "/", some "sid1", [], [], [], none⟩ ∧
    rootPage (fun _ _ _ e => (e, none))
        ⟨[], 10, true, false, 2, 3⟩
        ⟨"GET", "/", some "sid1", [], [], [], none⟩ =
      rootGateErrorPage ⟨[], 10, true, false, 2, 3⟩
        ⟨"GET", "/", some "sid1", [], [], [], none⟩
        (Err.backendUnavailable "session store unavailable") :=
  ⟨(c5_root_soft_failure (fun _ _ _ e => (e, none))
      ⟨[⟨"sid1", .authenticated, "inst", 7, 1000⟩], 2000, false, false, 2, 3⟩
      ⟨"GET", "/", some "sid1", [], [], [], none⟩).1 rfl (by decide),
   (c5_root_soft_failure (fun _ _ _ e => (e, none))
      ⟨[⟨"sid1", .anonymous, "inst", 7, 1000⟩], 10, false, false, 2, 3⟩
      ⟨"GET", "/", some "sid1", [], [], [], none⟩).2.1
     ⟨"sid1", .anonymous, "inst", 7, 1000⟩ rfl (by decide) (by decide),
   (c5_root_soft_failure (fun _ _ _ e => (e, none))
      ⟨[], 10, true, false, 2, 3⟩
      ⟨"GET", "/", some "sid1", [], [], [], none⟩).2.2 rfl⟩

/-- The full response of an authenticated `POST /signout`: Content-Type
and `Location: /` headers, status 302 only, a `session_id` cookie cleared
to the empty value whose expiry is the moment it was set (duration 0,
never in the future), no body piece, no error in the log — whatever
`s.Signout` returned, only the store field reflects it. -/
def signoutOkEff (env : Env) (req : Request) (sess : Session) : Eff :=
  { headers := [("Content-Type", contentTypeFor RespType.html), ("Location", "/")],
    statuses := [302],
    pieces := [],
    cookies := [⟨"session_id", "", env.now + env.authCost⟩],
    logs := [⟨req.path, none, env.authCost⟩],
    store := (svcSignout env env.store sess.id).1,
    gateCalls := 1,
    clock := env.now + env.authCost }

/-- C9: once the gate accepts a `POST /signout` request, the response is
always the cleared session cookie and a 302 redirect to `/` with no error
surfaced — the environment's `destroyFails` flag (whether the underlying
`Signout` store operation fails) is unconstrained, and every
client-visible field of the result is independent of it: its error result
is discarded. -/
theorem c9_signout_discards_error (env : Env) (req : Request) (sess : Session)
    (hup : env.storeDown = false)
    (hs : lookup env.store env.now (sidOf req) = some sess)
    (hc : formValue req "csrf_token" = deriveToken sess) :
    handle signoutF AuthLevel.csrf RespType.html env req = signoutOkEff env req sess ∧
    pipelineErr signoutF AuthLevel.csrf RespType.html env req = none := by
  constructor
  · simp only [handle, signoutF, authenticate, svcAuthenticate, signoutOkEff]
    simp [hup, hs, hc, redirect, addStatus, addHeader, addPiece, initEff,
      emitLog, setSessionCookie, Eff.mk.injEq]
  · simp only [pipelineErr, signoutF, authenticate, svcAuthenticate]
    simp [hup, hs, hc, initEff, addHeader]

/-- Witness for C9: a concrete authenticated sign-out with the destroy
operation failing — the response still clears the cookie and redirects
with no error. -/
theorem c9_signout_discards_error_witness :
    handle signoutF AuthLevel.csrf RespType.html
        ⟨[⟨"sid1", .authenticated, "inst", 7, 1000⟩], 10, false, true, 2, 3⟩
        ⟨"POST", "/signout", some "sid1", [("csrf_token", "csrf-7")], [], [], none⟩ =
      signoutOkEff
        ⟨[⟨"sid1", .authenticated, "inst", 7, 1000⟩], 10, false, true, 2, 3⟩
        ⟨"POST", "/signout", some "sid1", [("csrf_token", "csrf-7")], [], [], none⟩
        ⟨"sid1", .authenticated, "inst", 7, 1000⟩ ∧
    pipelineErr signoutF AuthLevel.csrf RespType.html
        ⟨[⟨"sid1", .authenticated, "inst", 7, 1000⟩], 10, false, true, 2, 3⟩
        ⟨"POST", "/signout", some "sid1", [("csrf_token", "csrf-7")], [], [], none⟩ = none :=
  c9_signout_discards_error
    ⟨[⟨"sid1", .authenticated, "inst", 7, 1000⟩], 10, false, true, 2, 3⟩
    ⟨"POST", "/signout", some "sid1", [("csrf_token", "csrf-7")], [], [], none⟩
    ⟨"sid1", .authenticated, "inst", 7, 1000⟩ rfl (by decide) (by decide)

/-- A session resolved by `lookup` carries the looked-up identifier. -/
theorem lookup_some_id (store : List Session) (now : Nat) (sid : String)
    (sess : Session) (h : lookup store now sid = some sess) : sess.id = sid := by
  unfold lookup at h
  cases hf : store.find? (fun s => s.id = sid) with
  | none => rw [hf] at h; exact absurd h (by simp)
  | some s1 =>
    rw [hf] at h
    have hp := List.find?_some hf
    simp at hp
    by_cases hex : now < s1.expiry
    · simp [hex] at h
      rw [← h]
      exact hp
    · simp [hex] at h

/-- After every session with a given identifier is removed from the store,
looking that identifier up resolves nothing. -/
theorem lookup_filter_id (store : List Session) (now : Nat) (sid : String) :
    lookup (store.filter fun s => ¬ s.id = sid) now sid = none := by
  unfold lookup
  have h : (store.filter fun s => ¬ s.id = sid).find? (fun s => s.id = sid) = none := by
    rw [List.find?_eq_none]
    intro x hx
    have hx2 := (List.mem_filter.mp hx).2
    simp at hx2 ⊢
    exact hx2
  rw [h]

/-- The environment of the C3 scenario: one authenticated, unexpired
session in the store, the store reachable, destroys succeeding. -/
def c3Env : Env :=
  ⟨[⟨"sid1", .authenticated, "example.social", 7, 1000⟩], 10, false, false, 2, 3⟩

/-- The C3 request: `POST /signout` presenting the session cookie and the
session's correct CSRF token. -/
def c3Req : Request :=
  ⟨"POST", "/signout", some "sid1", [("csrf_token", "csrf-7")], [], [], none⟩

/-- The environment a second, identical `POST /signout` runs in: the store
as the first sign-out left it. -/
def c3SecondEnv : Env :=
  { c3Env with store := (handle signoutF AuthLevel.csrf RespType.html c3Env c3Req).store }

/-- Counterexample to C3: the first sign-out succeeds (no error, cookie
cleared), but performing it a second time at the HTTP interface — same
cookie, same token — is an error: the session is gone, so the
`CsrfRequired` gate fails with `InvalidSession`, and no cleared cookie is
set on that response. The claim's "a second time yields no error and every
sign-out response carries a cleared cookie" is false. -/
theorem c3_counterexample :
    pipelineErr signoutF AuthLevel.csrf RespType.html c3Env c3Req = none ∧
    (handle signoutF AuthLevel.csrf RespType.html c3Env c3Req).cookies =
      [⟨"session_id", "", 12⟩] ∧
    pipelineErr signoutF AuthLevel.csrf RespType.html c3SecondEnv c3Req =
      some Err.invalidSession ∧
    (handle signoutF AuthLevel.csrf RespType.html c3SecondEnv c3Req).cookies = [] := by
  decide

/-- C3 (amended): the session-store destroy behind sign-out is idempotent —
destroying an already-absent session identifier reports no error — and a
sign-out whose gate passes always responds with the cleared session cookie;
but sign-out is not idempotent at the HTTP interface: a second
`POST /signout` presenting the same session runs against the store the
first one emptied, fails the `CsrfRequired` gate with `InvalidSession`,
and sets no cookie at all. -/
theorem c3_signout_amended (env : Env) (req : Request) (sess : Session)
    (hup : env.storeDown = false)
    (hdf : env.destroyFails = false)
    (hs : lookup env.store env.now (sidOf req) = some sess)
    (hc : formValue req "csrf_token" = deriveToken sess) :
    (∀ store2 : List Session, (svcSignout env store2 (sidOf req)).2 = none) ∧
    (handle signoutF AuthLevel.csrf RespType.html env req).cookies =
      [⟨"session_id", "", env.now + env.authCost⟩] ∧
    pipelineErr signoutF AuthLevel.csrf RespType.html
      { env with store := (handle signoutF AuthLevel.csrf RespType.html env req).store }
      req = some Err.invalidSession ∧
    (handle signoutF AuthLevel.csrf RespType.html
      { env with store := (handle signoutF AuthLevel.csrf RespType.html env req).store }
      req).cookies = [] := by
  have heq : handle signoutF AuthLevel.csrf RespType.html env req =
      signoutOkEff env req sess := by
    simp only [handle, signoutF, authenticate, svcAuthenticate, signoutOkEff]
    simp [hup, hs, hc, redirect, addStatus, addHeader, addPiece, initEff,
      emitLog, setSessionCookie, Eff.mk.injEq]
  have hid : sess.id = sidOf req := lookup_some_id _ _ _ _ hs
  have hstore : (handle signoutF AuthLevel.csrf RespType.html env req).store =
      env.store.filter (fun s => ¬ s.id = sidOf req) := by
    rw [heq]
    simp [signoutOkEff, svcSignout, hdf, hid]
  have hs2 : lookup (handle signoutF AuthLevel.csrf RespType.html env req).store
      env.now (sidOf req) = none := by
    rw [hstore]
    exact lookup_filter_id _ _ _
  refine ⟨?_, ?_, ?_, ?_⟩
  · intro store2
    simp [svcSignout, hdf]
  · rw [heq]
    simp [signoutOkEff]
  · rw [hstore]
    have hnone := lookup_filter_id env.store env.now (sidOf req)
    simp only [decide_not] at hnone
    simp only [pipelineErr, authenticate, svcAuthenticate]
    simp [hup, hnone, initEff, addHeader]
  · rw [hstore]
    have hnone := lookup_filter_id env.store env.now (sidOf req)
    simp only [decide_not] at hnone
    simp only [handle, authenticate, svcAuthenticate]
    simp [hup, hnone, initEff, addHeader, writeError, addStatus,
      addPiece, emitLog]

/-- Witness for the amended C3: the concrete scenario of the
counterexample, through the amended theorem. -/
theorem c3_signout_amended_witness :
    (∀ store2 : List Session, (svcSignout c3Env store2 (sidOf c3Req)).2 = none) ∧
    (handle signoutF AuthLevel.csrf RespType.html c3Env c3Req).cookies =
      [⟨"session_id", "", c3Env.now + c3Env.authCost⟩] ∧
    pipelineErr signoutF AuthLevel.csrf RespType.html
      { c3Env with store := (handle signoutF AuthLevel.csrf RespType.html c3Env c3Req).store }
      c3Req = some Err.invalidSession ∧
    (handle signoutF AuthLevel.csrf RespType.html
      { c3Env with store := (handle signoutF AuthLevel.csrf RespType.html c3Env c3Req).store }
      c3Req).cookies = [] :=
  c3_signout_amended c3Env c3Req ⟨"sid1", .authenticated, "example.social", 7, 1000⟩
    rfl rfl (by decide) (by decide)

/-- A string `strconv.Atoi` rejects parses to the value 0 — the routes
that discard the error therefore see offset 0. -/
theorem goAtoi_not_num (s : String) (h : isGoNum s = false) : (goAtoi s).1 = 0 := by
  unfold isGoNum at h
  unfold goAtoi at h ⊢
  by_cases hc : atoiValid s <;> simp [hc] at h ⊢

/-- C10: for `GET /search` and `GET /usersearch/id`, when the `offset`
query parameter is absent or not a number, the route's business logic is
called with offset 0 and the handler contributes nothing else — the result
is exactly the page renderer's result, so the bad parameter never fails
the request; and the absent parameter (read as `""`) is indeed rejected by
the parser, hence covered. -/
theorem c10_offset_defaults_to_zero (sb ub : SearchBiz) (env : Env)
    (req : Request) (s : Session) (e : Eff)
    (h : isGoNum (queryGet req "offset") = false) :
    searchPageF sb env req s e = sb (queryGet req "q") (queryGet req "type") 0 e ∧
    userSearchPageF ub env req s e = ub (pathVar req "id") (queryGet req "q") 0 e ∧
    isGoNum "" = false := by
  have h0 := goAtoi_not_num _ h
  refine ⟨?_, ?_, by decide⟩
  · simp only [searchPageF, h0]
  · simp only [userSearchPageF, h0]

/-- Witness for C10: a concrete request with `offset=abc` and a renderer
that records the offset it received — it is invoked with 0 and its result
is returned unchanged. -/
theorem c10_offset_defaults_to_zero_witness :
    searchPageF (fun q t o e => (e, some (Err.business (q ++ t ++ toString o))))
        ⟨[], 10, false, false, 2, 3⟩
        ⟨"GET", "/search", none, [], [("q", "cats"), ("offset", "abc")], [], none⟩
        Session.zero (initEff ⟨[], 10, false, false, 2, 3⟩) =
      (fun q t o e => (e, some (Err.business (q ++ t ++ toString o))))
        "cats" "" 0 (initEff ⟨[], 10, false, false, 2, 3⟩) ∧
    userSearchPageF (fun i q o e => (e, some (Err.business (i ++ q ++ toString o))))
        ⟨[], 10, false, false, 2, 3⟩
        ⟨"GET", "/usersearch/9", none, [], [("q", "cats"), ("offset", "abc")],
          [("id", "9")], none⟩
        Session.zero (initEff ⟨[], 10, false, false, 2, 3⟩) =
      (fun i q o e => (e, some (Err.business (i ++ q ++ toString o))))
        "9" "cats" 0 (initEff ⟨[], 10, false, false, 2, 3⟩) ∧
    isGoNum "" = false :=
  ⟨(c10_offset_defaults_to_zero
      (fun q t o e => (e, some (Err.business (q ++ t ++ toString o))))
      (fun i q o e => (e, some (Err.business (i ++ q ++ toString o))))
      ⟨[], 10, false, false, 2, 3⟩
      ⟨"GET", "/search", none, [], [("q", "cats"), ("offset", "abc")], [], none⟩
      Session.zero (initEff ⟨[], 10, false, false, 2, 3⟩) (by decide)).1,
   (c10_offset_defaults_to_zero
      (fun q t o e => (e, some (Err.business (q ++ t ++ toString o))))
      (fun i q o e => (e, some (Err.business (i ++ q ++ toString o))))
      ⟨[], 10, false, false, 2, 3⟩
      ⟨"GET", "/usersearch/9", none, [], [("q", "cats"), ("offset", "abc")],
        [("id", "9")], none⟩
      Session.zero (initEff ⟨[], 10, false, false, 2, 3⟩) (by decide)).2⟩

/-- The environment of the C8 scenario: one authenticated, unexpired
session, store reachable. -/
def c8Env : Env :=
  ⟨[⟨"sid1", .authenticated, "example.social", 7, 1000⟩], 10, false, false, 2, 3⟩

/-- The C8 request: `POST /post` with an ordinary url-encoded body — the
correct session cookie and CSRF token, but no multipart form, so Go's
`r.MultipartForm` is nil. -/
def c8Req : Request :=
  ⟨"POST", "/post", some "sid1",
    [("csrf_token", "csrf-7"), ("content", "hello world")], [], [], none⟩

/-- A stand-in for the out-of-scope `s.Post`; never reached in the C8
scenario. -/
def c8Biz : PostBiz := fun _ _ _ _ _ _ e => (e, ("90", none))

/-- C8: the Authentication Gate accepts this non-multipart `POST /post`
request (valid session, correct CSRF token), yet its parsed multipart form
is nil, and the pipeline reaches the nil-`MultipartForm` dereference in the
`post` handler — the branch the claim asserts unreachable for gate-accepted
requests is reached, so the unguarded `c.r.MultipartForm.File` access is a
genuine defect. -/
theorem c8_nil_multipart_reachable :
    svcAuthenticate c8Env c8Env.store c8Env.now (sidOf c8Req)
        (formValue c8Req "csrf_token") AuthLevel.csrf =
      Except.ok ⟨"sid1", .authenticated, "example.social", 7, 1000⟩ ∧
    c8Req.multipartForm = none ∧
    pipelineErr (postF c8Biz) AuthLevel.csrf RespType.html c8Env c8Req =
      some Err.nilDereference :=
  ⟨rfl, rfl, by decide⟩
